import Mathlib

/-!
Verification of the baro_backend core algorithms against their specification.

The Python source is shallowly embedded: Python `float` values are modelled as
exact rationals (`ℚ`), `int` as `ℤ`, fallible parsing as `Option`, and the
network collaborators (Supabase fetches, weather gate) as explicit parameters.
Python `round(x, n)` (round-half-to-even at `n` decimal digits) is modelled
exactly by `pyRound`.
-/

namespace Baro

/-- Python `round(q)` for a real value modelled as a rational:
round to the nearest integer, ties going to the even integer. -/
def pyRoundInt (q : ℚ) : ℤ :=
  if q - ⌊q⌋ < 1/2 then ⌊q⌋
  else if 1/2 < q - ⌊q⌋ then ⌊q⌋ + 1
  else if 2 ∣ ⌊q⌋ then ⌊q⌋ else ⌊q⌋ + 1

/-- Python `round(q, ndigits)`: round-half-to-even at `ndigits` decimal places. -/
def pyRound (q : ℚ) (ndigits : ℕ) : ℚ :=
  (pyRoundInt (q * 10 ^ ndigits) : ℚ) / 10 ^ ndigits

/-- Embedding of `_update_manner_temp` from `app/modules/feedback/repository.py`
(lines 20-46): if `ratings` is empty return `current_temp`; otherwise add
`(total - 3*n)/n`, clamp into `[0, 99]` via `max(0, min(99, ·))`, and round to
one decimal place. -/
def update_manner_temp (current_temp : ℚ) (ratings : List ℤ) : ℚ :=
  if ratings.isEmpty then current_temp
  else
    let n : ℤ := ratings.length
    let total : ℤ := ratings.sum
    let delta : ℚ := ((total : ℚ) - 3 * n) / n
    let new_temp := current_temp + delta
    pyRound (max 0 (min 99 new_temp)) 1

/-- The clamp function named by the specification: `clamp(x, lo, hi)`. -/
def clamp (lo hi x : ℚ) : ℚ := max lo (min hi x)

/-- The score-update formula exactly as the specification states it:
`round(clamp(currentScore + (sum(ratings) - 3*n)/n, 0, 99), 1)`. -/
def applyRatingsSpec (currentScore : ℚ) (ratings : List ℤ) : ℚ :=
  pyRound
    (clamp 0 99
      (currentScore + (((ratings.sum : ℚ) - 3 * ratings.length) / ratings.length)))
    1

/-! ### Embedding of `app/db.py`

Python strings are modelled as `String`; the normalization helper `_norm`
returns the character sequence of its result (Python `str.replace(" ", "")`
removes every space character and `str.lower()` lowercases character-wise),
so that substring matching is the `in` operator on the normalized text.
The transcendental `_haversine` (float `sin`/`cos`/`atan2`/`sqrt`) cannot be
represented exactly over `ℚ`; the scoring and filtering pipelines are
therefore parametric in the distance function `havq` standing for the value
`_haversine` computes for a row, and the idealized real-valued `_haversine`
is defined separately over `ℝ` below. Network fetches (`_fetch_all_facilities`,
`_fetch_exercise_methods`, `_fetch_age_gender_pref_sports`, `is_indoor_only`)
are collaborators and enter as explicit parameters. -/

/-- Embedding of `_norm` from `app/db.py`: strip all spaces, lowercase. -/
def _norm (text : String) : List Char :=
  (text.data.filter (fun c => c ≠ ' ')).map Char.toLower

/-- Python's substring operator `needle in hay` on character sequences. -/
def strIn (needle : List Char) : List Char → Bool
  | [] => needle.isEmpty
  | c :: rest => needle.isPrefixOf (c :: rest) || strIn needle rest

/-- Embedding of `_age_to_band` from `app/db.py`. -/
def _age_to_band (age : ℤ) : String :=
  if age < 20 then "10대"
  else if age < 30 then "20대"
  else if age < 40 then "30대"
  else if age < 50 then "40대"
  else if age < 60 then "50대"
  else if age < 70 then "60대"
  else "70대 이상"

/-- One row returned by `_fetch_all_facilities`. The coordinate fields are
`Option ℚ`: `none` models a value on which `float(...)` raises. -/
structure FacilityRow where
  faci_cd : String
  faci_nm : String
  faci_addr : String
  faci_lat : Option ℚ
  faci_lot : Option ℚ
  ftype_nm : Option String
  inout_gbn_nm : Option String
deriving DecidableEq

/-- The `detail_scores` sub-dictionary of a scored facility. -/
structure DetailScores where
  distance : ℚ
  preferred_sport : ℚ
  age : ℚ
  gender : ℚ
  intensity : ℚ
  age_sports : ℚ
deriving DecidableEq

/-- One entry of the `results` list built by `get_profiled_facilities`. -/
structure ScoredFacility where
  faci_cd : String
  faci_nm : String
  faci_addr : String
  ftype_nm : Option String
  inout_gbn_nm : Option String
  faci_lat : ℚ
  faci_lot : ℚ
  distance_km : ℚ
  score : ℚ
  detail_scores : DetailScores
deriving DecidableEq

/-- The dictionary `get_profiled_facilities` returns. -/
structure RecommendResult where
  indoor_only : Bool
  facilities : List ScoredFacility
deriving DecidableEq

/-- Distance sub-score: `max(0.0, (D_MAX - distance_km) / D_MAX)` with
`D_MAX = 5.0`. -/
def distScoreQ (distance_km : ℚ) : ℚ := max 0 ((5 - distance_km) / 5)

/-- The break-out-on-first-hit loops for `pref_score` and for the
age/gender/age-sports triple: `1.0` as soon as some normalized sport of the
list is a substring of the normalized facility sport-type text, else `0.0`. -/
def sportAnyScore (sports_norm : List (List Char)) (hay : List Char) : ℚ :=
  if sports_norm.any (fun sp => strIn sp hay) then 1 else 0

/-- The intensity loop: walk `intensity_map` in iteration order, take the
first entry whose (already normalized) sport name is a substring of the
normalized facility text as `facility_intensity`, then score `1.0` exactly
when that value is truthy and equals the supplied `preferred_intensity`. -/
def intensityScore (intensity_map : List (List Char × String))
    (preferred_intensity : Option String) (hay : List Char) : ℚ :=
  match preferred_intensity with
  | none => 0
  | some pref =>
    if pref = "" then 0
    else
      match intensity_map.find? (fun kv => strIn kv.1 hay) with
      | none => 0
      | some kv => if kv.2 ≠ "" ∧ kv.2 = pref then 1 else 0

/-- The weighted sum with the source's constants
`W_DIST, W_PREF, W_AGE, W_GENDER, W_INTENSITY, W_AGE_SPORTS`. -/
def compositeScore (dist pref age gender intensity ageSports : ℚ) : ℚ :=
  0.2 * dist + 0.2 * pref + 0.2 * age + 0.2 * gender
    + 0.05 * intensity + 0.05 * ageSports

/-- The record appended to `results` for a facility row that was kept: all the
per-row computations of lines 169-239 of `app/db.py`. -/
def mkScored (havq : ℚ → ℚ → ℚ → ℚ → ℚ) (user_lat user_lon : ℚ)
    (preferred_sports_norm age_gender_pref_norm : List (List Char))
    (intensity_map : List (List Char × String)) (preferred_intensity : Option String)
    (row : FacilityRow) (faci_lat faci_lot : ℚ) : ScoredFacility :=
  let ftype_nm := row.ftype_nm.getD ""
  let distance_km := havq user_lat user_lon faci_lat faci_lot
  let dist_score := distScoreQ distance_km
  let pref_score := sportAnyScore preferred_sports_norm (_norm ftype_nm)
  let demo_score := sportAnyScore age_gender_pref_norm (_norm ftype_nm)
  let intensity_score := intensityScore intensity_map preferred_intensity (_norm ftype_nm)
  let total_score :=
    compositeScore dist_score pref_score demo_score demo_score intensity_score demo_score
  { faci_cd := row.faci_cd
    faci_nm := row.faci_nm
    faci_addr := row.faci_addr
    ftype_nm := row.ftype_nm
    inout_gbn_nm := row.inout_gbn_nm
    faci_lat := faci_lat
    faci_lot := faci_lot
    distance_km := pyRound distance_km 2
    score := pyRound total_score 3
    detail_scores :=
      { distance := pyRound dist_score 3
        preferred_sport := pref_score
        age := demo_score
        gender := demo_score
        intensity := intensity_score
        age_sports := demo_score } }

/-- One iteration of the scoring loop of `get_profiled_facilities`
(lines 160-239 of `app/db.py`): `none` when the row is skipped by the
indoor-only gate or by coordinate parsing. -/
def scoreRow (havq : ℚ → ℚ → ℚ → ℚ → ℚ) (user_lat user_lon : ℚ)
    (preferred_sports_norm age_gender_pref_norm : List (List Char))
    (intensity_map : List (List Char × String)) (preferred_intensity : Option String)
    (indoor_only : Bool) (row : FacilityRow) : Option ScoredFacility :=
  if indoor_only = true ∧ row.inout_gbn_nm ≠ some "실내" then none
  else
    match row.faci_lat, row.faci_lot with
    | some faci_lat, some faci_lot =>
      some (mkScored havq user_lat user_lon preferred_sports_norm age_gender_pref_norm
        intensity_map preferred_intensity row faci_lat faci_lot)
    | _, _ => none

/-- The demographic preference-sport list: fetched from the collaborator
`prefFetch` exactly when both the age band and the gender are truthy
(`if age_band and gender:` in the source). -/
def ageGenderPrefSports (prefFetch : String → String → List String)
    (age : Option ℤ) (gender : Option String) : List String :=
  match age.map _age_to_band, gender with
  | some band, some g => if band ≠ "" ∧ g ≠ "" then prefFetch band g else []
  | _, _ => []

/-- The `results` list of `get_profiled_facilities` in fetch order. -/
def profiledCandidates (havq : ℚ → ℚ → ℚ → ℚ → ℚ)
    (prefFetch : String → String → List String) (user_lat user_lon : ℚ)
    (facilities : List FacilityRow) (intensity_map : List (List Char × String))
    (indoor_only : Bool) (preferred_sports : Option (List String))
    (age : Option ℤ) (gender : Option String)
    (preferred_intensity : Option String) : List ScoredFacility :=
  let preferred_sports_norm := (preferred_sports.getD []).map _norm
  let age_gender_pref_norm := (ageGenderPrefSports prefFetch age gender).map _norm
  facilities.filterMap
    (scoreRow havq user_lat user_lon preferred_sports_norm age_gender_pref_norm
      intensity_map preferred_intensity indoor_only)

/-- The comparison used by `results.sort(key=lambda x: x["score"], reverse=True)`:
Python's stable sort in reverse mode keeps `a` before `b` exactly when
`b.score <= a.score`. -/
def scoreGE (a b : ScoredFacility) : Bool := decide (b.score ≤ a.score)

/-- The `results` list after the descending stable sort. -/
def profiledSorted (havq : ℚ → ℚ → ℚ → ℚ → ℚ)
    (prefFetch : String → String → List String) (user_lat user_lon : ℚ)
    (facilities : List FacilityRow) (intensity_map : List (List Char × String))
    (indoor_only : Bool) (preferred_sports : Option (List String))
    (age : Option ℤ) (gender : Option String)
    (preferred_intensity : Option String) : List ScoredFacility :=
  (profiledCandidates havq prefFetch user_lat user_lon facilities intensity_map
    indoor_only preferred_sports age gender preferred_intensity).mergeSort scoreGE

/-- Embedding of `get_profiled_facilities` from `app/db.py` (lines 119-246). -/
def get_profiled_facilities (havq : ℚ → ℚ → ℚ → ℚ → ℚ)
    (prefFetch : String → String → List String) (user_lat user_lon : ℚ)
    (facilities : List FacilityRow) (intensity_map : List (List Char × String))
    (indoor_only : Bool) (preferred_sports : Option (List String))
    (age : Option ℤ) (gender : Option String)
    (preferred_intensity : Option String) (limit : ℕ) : RecommendResult :=
  { indoor_only := indoor_only
    facilities :=
      (profiledSorted havq prefFetch user_lat user_lon facilities intensity_map
        indoor_only preferred_sports age gender preferred_intensity).take limit }

/-! ### Embedding of `get_nearby_parties` from `app/db.py` (lines 257-315) -/

/-- One row of the `sample.parties` collaborator response. The coordinate
fields are `Option ℚ`: `none` models a value on which `float(...)` raises. -/
structure PartyRow where
  id : String
  title : Option String
  sports_nm : Option String
  place : Option String
  lat : Option ℚ
  lon : Option ℚ
  date : Option String
  start_time : Option String
  end_time : Option String
  max_members : Option ℤ
  notes : Option String
  status : Option String
deriving DecidableEq

/-- One entry of the list `get_nearby_parties` returns. -/
structure PartyOut where
  id : String
  title : Option String
  sports_nm : Option String
  place : Option String
  lat : ℚ
  lon : ℚ
  date : Option String
  start_time : Option String
  end_time : Option String
  max_members : Option ℤ
  notes : Option String
  status : Option String
  distance_km : ℚ
deriving DecidableEq

/-- The record appended for a kept party row. -/
def mkPartyOut (havq : ℚ → ℚ → ℚ → ℚ → ℚ) (user_lat user_lon : ℚ)
    (row : PartyRow) (lat lon : ℚ) : PartyOut :=
  { id := row.id
    title := row.title
    sports_nm := row.sports_nm
    place := row.place
    lat := lat
    lon := lon
    date := row.date
    start_time := row.start_time
    end_time := row.end_time
    max_members := row.max_members
    notes := row.notes
    status := row.status
    distance_km := pyRound (havq user_lat user_lon lat lon) 2 }

/-- One iteration of the loop of `get_nearby_parties`: skip a row with
unparsable coordinates, skip a row with `distance_km > max_distance_km`. -/
def partyEntry (havq : ℚ → ℚ → ℚ → ℚ → ℚ) (user_lat user_lon max_distance_km : ℚ)
    (row : PartyRow) : Option PartyOut :=
  match row.lat, row.lon with
  | some lat, some lon =>
    if max_distance_km < havq user_lat user_lon lat lon then none
    else some (mkPartyOut havq user_lat user_lon row lat lon)
  | _, _ => none

/-- The `results` list of `get_nearby_parties` in fetch order. -/
def partyCandidates (havq : ℚ → ℚ → ℚ → ℚ → ℚ)
    (user_lat user_lon max_distance_km : ℚ) (rows : List PartyRow) : List PartyOut :=
  rows.filterMap (partyEntry havq user_lat user_lon max_distance_km)

/-- The comparison of `results.sort(key=lambda x: x["distance_km"])`. -/
def distLE (a b : PartyOut) : Bool := decide (a.distance_km ≤ b.distance_km)

/-- The `results` list after the ascending stable sort. -/
def partySorted (havq : ℚ → ℚ → ℚ → ℚ → ℚ)
    (user_lat user_lon max_distance_km : ℚ) (rows : List PartyRow) : List PartyOut :=
  (partyCandidates havq user_lat user_lon max_distance_km rows).mergeSort distLE

/-- Embedding of `get_nearby_parties`: filter, sort ascending by the rounded
`distance_km`, return the first `limit` entries. -/
def get_nearby_parties (havq : ℚ → ℚ → ℚ → ℚ → ℚ)
    (user_lat user_lon max_distance_km : ℚ) (limit : ℕ)
    (rows : List PartyRow) : List PartyOut :=
  (partySorted havq user_lat user_lon max_distance_km rows).take limit

/-! ### The idealized real-valued `_haversine` (lines 31-42 of `app/db.py`) -/

/-- Python `math.radians`. -/
noncomputable def radians (x : ℝ) : ℝ := x * Real.pi / 180

/-- Python `math.atan2` (C99 semantics on real numbers). -/
noncomputable def atan2 (y x : ℝ) : ℝ :=
  if 0 < x then Real.arctan (y / x)
  else if x < 0 ∧ 0 ≤ y then Real.arctan (y / x) + Real.pi
  else if x < 0 then Real.arctan (y / x) - Real.pi
  else if 0 < y then Real.pi / 2
  else if y < 0 then -(Real.pi / 2)
  else 0

/-- The intermediate value `a` of `_haversine`. -/
noncomputable def haversineA (lat1 lon1 lat2 lon2 : ℝ) : ℝ :=
  Real.sin (radians (lat2 - lat1) / 2) ^ 2 +
    Real.cos (radians lat1) * Real.cos (radians lat2) *
      Real.sin (radians (lon2 - lon1) / 2) ^ 2

/-- Embedding of `_haversine` from `app/db.py`: `R * c` with `R = 6371.0` and
`c = 2 * atan2(sqrt(a), sqrt(1 - a))`. -/
noncomputable def _haversine (lat1 lon1 lat2 lon2 : ℝ) : ℝ :=
  6371.0 *
    (2 * atan2 (Real.sqrt (haversineA lat1 lon1 lat2 lon2))
      (Real.sqrt (1 - haversineA lat1 lon1 lat2 lon2)))

/-- The distance sub-score formula over the reals. -/
noncomputable def distScoreR (distance_km : ℝ) : ℝ := max 0 ((5 - distance_km) / 5)

/-! ### Concrete sample inputs used for instantiation -/

/-- A constant distance function: every facility 1 km away. -/
def havOne : ℚ → ℚ → ℚ → ℚ → ℚ := fun _ _ _ _ => 1

/-- A constant distance function: every facility 6 km away (beyond `D_MAX`). -/
def havSix : ℚ → ℚ → ℚ → ℚ → ℚ := fun _ _ _ _ => 6

/-- A demographic-preference collaborator that returns no sports. -/
def noPrefFetch : String → String → List String := fun _ _ => []

/-- A sample indoor facility row with parsable coordinates. -/
def rowA : FacilityRow :=
  ⟨"F1", "시설A", "주소A", some 1, some 2, some "실내 축구장", some "실내"⟩

/-- A sample intensity map: soccer is high intensity. -/
def imapA : List (List Char × String) := [(_norm "축구", "고")]

/-- A sample recruiting party row with parsable coordinates. -/
def partyRowA : PartyRow :=
  ⟨"P1", some "축구 모임", some "축구", some "잠실", some 1, some 2, some "2025-01-01",
    some "10:00", some "12:00", some 10, none, some "recruiting"⟩

/-- A sample party row whose latitude fails to parse. -/
def partyRowBad : PartyRow :=
  ⟨"P2", some "배드민턴", some "배드민턴", some "송파", none, some 2, some "2025-01-02",
    some "10:00", some "12:00", some 4, none, some "recruiting"⟩

/-! ### Bounds for `pyRoundInt` / `pyRound` -/

theorem pyRoundInt_le {q : ℚ} {m : ℤ} (h : q ≤ m) : pyRoundInt q ≤ m := by
  unfold pyRoundInt
  have hf : ⌊q⌋ ≤ m := Int.le_floor.mpr ((Int.floor_le q).trans h)
  have hfq := Int.floor_le q
  split
  · exact hf
  · rename_i h1
    split
    · rename_i h2
      have : (⌊q⌋ : ℚ) < (m : ℚ) := by linarith
      have : ⌊q⌋ < m := by exact_mod_cast this
      omega
    · rename_i h2
      split
      · exact hf
      · have hr : (1:ℚ)/2 ≤ q - ⌊q⌋ := le_of_not_lt h1
        have : (⌊q⌋ : ℚ) < (m : ℚ) := by linarith
        have : ⌊q⌋ < m := by exact_mod_cast this
        omega

theorem le_pyRoundInt {q : ℚ} {m : ℤ} (h : (m : ℚ) ≤ q) : m ≤ pyRoundInt q := by
  unfold pyRoundInt
  have hf : m ≤ ⌊q⌋ := Int.le_floor.mpr h
  split
  · exact hf
  · split
    · omega
    · split
      · exact hf
      · omega

theorem pyRound_le {q : ℚ} {n : ℕ} {m : ℤ} (h : q ≤ (m : ℚ) / 10 ^ n) :
    pyRound q n ≤ (m : ℚ) / 10 ^ n := by
  unfold pyRound
  have hpow : (0:ℚ) < 10 ^ n := by positivity
  have h1 : q * 10 ^ n ≤ (m : ℚ) := by
    rw [le_div_iff₀ hpow] at h
    exact h
  have h2 := pyRoundInt_le h1
  have h3 : (pyRoundInt (q * 10 ^ n) : ℚ) ≤ (m : ℚ) := by exact_mod_cast h2
  gcongr

theorem le_pyRound {q : ℚ} {n : ℕ} {m : ℤ} (h : (m : ℚ) / 10 ^ n ≤ q) :
    (m : ℚ) / 10 ^ n ≤ pyRound q n := by
  unfold pyRound
  have hpow : (0:ℚ) < 10 ^ n := by positivity
  have h1 : (m : ℚ) ≤ q * 10 ^ n := by
    rw [div_le_iff₀ hpow] at h
    exact h
  have h2 := le_pyRoundInt h1
  have h3 : (m : ℚ) ≤ (pyRoundInt (q * 10 ^ n) : ℚ) := by exact_mod_cast h2
  gcongr

theorem sum_eq_three_mul_length {r : List ℤ} (h : ∀ x ∈ r, x = 3) :
    r.sum = 3 * r.length := by
  induction r with
  | nil => simp
  | cons a t ih =>
    have ha : a = 3 := h a (List.mem_cons_self a t)
    have ht : t.sum = 3 * t.length := ih fun x hx => h x (List.mem_cons_of_mem a hx)
    simp [List.sum_cons, ha, ht]
    ring

theorem pyRound_nonneg (q : ℚ) (n : ℕ) (h : 0 ≤ q) : 0 ≤ pyRound q n := by
  have h0 : ((0 : ℤ) : ℚ) / 10 ^ n ≤ q := by simpa using h
  simpa using le_pyRound h0

theorem pyRound_le_one (q : ℚ) (n : ℕ) (h : q ≤ 1) : pyRound q n ≤ 1 := by
  have hpow : ((10 ^ n : ℤ) : ℚ) / 10 ^ n = 1 := by
    push_cast
    field_simp
  have h1 : q ≤ ((10 ^ n : ℤ) : ℚ) / 10 ^ n := by rw [hpow]; exact h
  have := pyRound_le h1
  rwa [hpow] at this

theorem pyRound3_le_nine_tenths (q : ℚ) (h : q ≤ 9/10) : pyRound q 3 ≤ 9/10 := by
  have he : ((900 : ℤ) : ℚ) / 10 ^ 3 = 9/10 := by norm_num
  have h1 : q ≤ ((900 : ℤ) : ℚ) / 10 ^ 3 := by rw [he]; exact h
  have := pyRound_le h1
  rwa [he] at this

theorem pyRound_intMul {k : ℤ} {n : ℕ} {q : ℚ} (h : q * 10 ^ n = (k : ℚ)) :
    pyRound q n = q := by
  unfold pyRound
  rw [h]
  have : pyRoundInt (k : ℚ) = k := by
    unfold pyRoundInt
    have hfl : ⌊(k : ℚ)⌋ = k := Int.floor_intCast k
    rw [hfl]
    norm_num
  rw [this]
  have hpow : (10:ℚ) ^ n ≠ 0 := by positivity
  field_simp [← h]

/-! ### Claims C1-C4: the reputation update -/

/-- C1: for every current score and every non-empty list of integer ratings,
`update_manner_temp` returns `round(clamp(currentScore + (sum - 3*n)/n, 0, 99), 1)`
where `n` is the number of ratings, and in particular
`update_manner_temp 36.5 [4,4,5,3] = 37.5`. -/
theorem update_manner_temp_eq_spec (c : ℚ) (r : List ℤ) (h : r ≠ []) :
    update_manner_temp c r = applyRatingsSpec c r ∧
    update_manner_temp 36.5 [4, 4, 5, 3] = 37.5 := by
  constructor
  · unfold update_manner_temp applyRatingsSpec clamp
    rw [if_neg (by simpa using h)]
    push_cast
    ring_nf
  · norm_num [update_manner_temp, pyRound, pyRoundInt]

theorem update_manner_temp_eq_spec_witness :
    update_manner_temp 36.5 [4, 4, 5, 3] = applyRatingsSpec 36.5 [4, 4, 5, 3] ∧
    update_manner_temp 36.5 [4, 4, 5, 3] = 37.5 :=
  update_manner_temp_eq_spec 36.5 [4, 4, 5, 3] (by simp)

/-- C2: for every current score and every non-empty list of ratings in `1..5`,
the updated score lies in `[0, 99]`; in particular
`update_manner_temp 0 [1,1,1,1] = 0` and `update_manner_temp 99 [5,5,5,5] = 99`. -/
theorem update_manner_temp_bounded (c : ℚ) (r : List ℤ) (h : r ≠ [])
    (hr : ∀ x ∈ r, 1 ≤ x ∧ x ≤ 5) :
    (0 ≤ update_manner_temp c r ∧ update_manner_temp c r ≤ 99) ∧
    update_manner_temp 0 [1, 1, 1, 1] = 0 ∧
    update_manner_temp 99 [5, 5, 5, 5] = 99 := by
  refine ⟨⟨?_, ?_⟩, ?_, ?_⟩
  · unfold update_manner_temp
    rw [if_neg (by simpa using h)]
    have h0 : ((0 : ℤ) : ℚ) / 10 ^ 1 ≤
        max 0 (min 99 (c + (((r.sum : ℚ) - 3 * (r.length : ℤ)) / (r.length : ℤ)))) := by
      simp
    simpa using le_pyRound h0
  · unfold update_manner_temp
    rw [if_neg (by simpa using h)]
    have h99 : max 0 (min 99 (c + (((r.sum : ℚ) - 3 * (r.length : ℤ)) / (r.length : ℤ))))
        ≤ ((990 : ℤ) : ℚ) / 10 ^ 1 := by
      have : max (0:ℚ) (min 99 (c + (((r.sum : ℚ) - 3 * (r.length : ℤ)) / (r.length : ℤ)))) ≤ 99 :=
        max_le (by norm_num) (min_le_left _ _)
      simpa using this.trans_eq (by norm_num)
    have h2 := pyRound_le h99
    have h3 : (((990 : ℤ) : ℚ)) / 10 ^ 1 = 99 := by norm_num
    simpa using h2.trans_eq h3
  · norm_num [update_manner_temp, pyRound, pyRoundInt]
  · norm_num [update_manner_temp, pyRound, pyRoundInt]

theorem update_manner_temp_bounded_witness :
    (0 ≤ update_manner_temp 0 [1, 1, 1, 1] ∧ update_manner_temp 0 [1, 1, 1, 1] ≤ 99) ∧
    update_manner_temp 0 [1, 1, 1, 1] = 0 ∧
    update_manner_temp 99 [5, 5, 5, 5] = 99 :=
  update_manner_temp_bounded 0 [1, 1, 1, 1] (by simp) (by intro x hx; simp at hx; omega)

/-- C3: calling the update with the empty ratings list returns the score
unchanged — no clamping, no rounding. -/
theorem update_manner_temp_empty (c : ℚ) : update_manner_temp c [] = c := rfl

/-- C4 counterexample: the claim "for every score `S`, an all-3 rating batch
returns `S` unchanged" is false: at score `1/4` (a value the code's own
1-decimal rounding does not fix), the code returns `0.2`, not `0.25`. -/
theorem update_manner_temp_neutral_cex :
    ¬ (update_manner_temp (1/4) [3] = 1/4) := by
  norm_num [update_manner_temp, pyRound, pyRoundInt]

/-- C4 (amended): for every score `S` that lies in `[0, 99]` and is an exact
multiple of `0.1` (as every score the system ever stores is), a non-empty
all-3 rating batch returns `S` unchanged, because the delta is `0`. -/
theorem update_manner_temp_neutral (c : ℚ) (r : List ℤ) (h : r ≠ [])
    (hall : ∀ x ∈ r, x = 3) (h0 : 0 ≤ c) (h99 : c ≤ 99) (k : ℤ)
    (hk : c = (k : ℚ) / 10) :
    update_manner_temp c r = c := by
  unfold update_manner_temp
  rw [if_neg (by simpa using h)]
  have hlen : (0:ℚ) < ((r.length : ℤ) : ℚ) := by
    have : 0 < r.length := List.length_pos.mpr h
    exact_mod_cast this
  have hsum : r.sum = 3 * r.length := sum_eq_three_mul_length hall
  have hdelta : (((r.sum : ℤ) : ℚ) - 3 * ((r.length : ℤ) : ℚ)) / ((r.length : ℤ) : ℚ) = 0 := by
    rw [hsum]
    push_cast
    field_simp
  have hbody : c + (((r.sum : ℤ) : ℚ) - 3 * ((r.length : ℤ) : ℚ)) / ((r.length : ℤ) : ℚ) = c := by
    rw [hdelta]; ring
  have hclamp : max 0 (min 99 (c + (((r.sum : ℤ) : ℚ) - 3 * ((r.length : ℤ) : ℚ))
      / ((r.length : ℤ) : ℚ))) = c := by
    rw [hbody, min_eq_right h99, max_eq_right h0]
  have hmul : c * 10 ^ 1 = (k : ℚ) := by
    rw [hk]; ring_nf
  calc pyRound (max 0 (min 99 (c + (((r.sum : ℤ) : ℚ) - 3 * ((r.length : ℤ) : ℚ))
        / ((r.length : ℤ) : ℚ)))) 1 = pyRound c 1 := by rw [hclamp]
    _ = c := pyRound_intMul hmul

theorem update_manner_temp_neutral_witness :
    update_manner_temp 36.5 [3, 3] = 36.5 :=
  update_manner_temp_neutral 36.5 [3, 3] (by simp)
    (by intro x hx; simp at hx; exact hx) (by norm_num) (by norm_num) 365 (by norm_num)

/-! ### Helper lemmas about the facility pipeline -/

theorem scoreGE_trans (a b c : ScoredFacility) :
    scoreGE a b → scoreGE b c → scoreGE a c := by
  simp only [scoreGE, decide_eq_true_eq]
  exact fun h1 h2 => le_trans h2 h1

theorem scoreGE_total (a b : ScoredFacility) : scoreGE a b || scoreGE b a := by
  simp only [scoreGE, Bool.or_eq_true, decide_eq_true_eq]
  exact le_total _ _

theorem distLE_trans (a b c : PartyOut) : distLE a b → distLE b c → distLE a c := by
  simp only [distLE, decide_eq_true_eq]
  exact fun h1 h2 => le_trans h1 h2

theorem distLE_total (a b : PartyOut) : distLE a b || distLE b a := by
  simp only [distLE, Bool.or_eq_true, decide_eq_true_eq]
  exact le_total _ _

theorem mkScored_inout (havq : ℚ → ℚ → ℚ → ℚ → ℚ) (u1 u2 : ℚ)
    (ps ag : List (List Char)) (im : List (List Char × String)) (pint : Option String)
    (row : FacilityRow) (flat flon : ℚ) :
    (mkScored havq u1 u2 ps ag im pint row flat flon).inout_gbn_nm = row.inout_gbn_nm := rfl

theorem mkScored_ftype (havq : ℚ → ℚ → ℚ → ℚ → ℚ) (u1 u2 : ℚ)
    (ps ag : List (List Char)) (im : List (List Char × String)) (pint : Option String)
    (row : FacilityRow) (flat flon : ℚ) :
    (mkScored havq u1 u2 ps ag im pint row flat flon).ftype_nm = row.ftype_nm := rfl

theorem mkScored_detail (havq : ℚ → ℚ → ℚ → ℚ → ℚ) (u1 u2 : ℚ)
    (ps ag : List (List Char)) (im : List (List Char × String)) (pint : Option String)
    (row : FacilityRow) (flat flon : ℚ) :
    (mkScored havq u1 u2 ps ag im pint row flat flon).detail_scores =
      { distance := pyRound (distScoreQ (havq u1 u2 flat flon)) 3
        preferred_sport := sportAnyScore ps (_norm (row.ftype_nm.getD ""))
        age := sportAnyScore ag (_norm (row.ftype_nm.getD ""))
        gender := sportAnyScore ag (_norm (row.ftype_nm.getD ""))
        intensity := intensityScore im pint (_norm (row.ftype_nm.getD ""))
        age_sports := sportAnyScore ag (_norm (row.ftype_nm.getD "")) } := rfl

theorem mkScored_score (havq : ℚ → ℚ → ℚ → ℚ → ℚ) (u1 u2 : ℚ)
    (ps ag : List (List Char)) (im : List (List Char × String)) (pint : Option String)
    (row : FacilityRow) (flat flon : ℚ) :
    (mkScored havq u1 u2 ps ag im pint row flat flon).score =
      pyRound
        (compositeScore (distScoreQ (havq u1 u2 flat flon))
          (sportAnyScore ps (_norm (row.ftype_nm.getD "")))
          (sportAnyScore ag (_norm (row.ftype_nm.getD "")))
          (sportAnyScore ag (_norm (row.ftype_nm.getD "")))
          (intensityScore im pint (_norm (row.ftype_nm.getD "")))
          (sportAnyScore ag (_norm (row.ftype_nm.getD "")))) 3 := rfl

theorem scoreRow_some {havq : ℚ → ℚ → ℚ → ℚ → ℚ} {u1 u2 : ℚ}
    {ps ag : List (List Char)} {im : List (List Char × String)} {pint : Option String}
    {io : Bool} {row : FacilityRow} {sf : ScoredFacility}
    (h : scoreRow havq u1 u2 ps ag im pint io row = some sf) :
    ¬(io = true ∧ row.inout_gbn_nm ≠ some "실내") ∧
    ∃ flat flon, row.faci_lat = some flat ∧ row.faci_lot = some flon ∧
      sf = mkScored havq u1 u2 ps ag im pint row flat flon := by
  unfold scoreRow at h
  split at h
  · exact absurd h (by simp)
  · rename_i hgate
    refine ⟨hgate, ?_⟩
    split at h
    · rename_i flat flon hlat hlot
      exact ⟨flat, flon, hlat, hlot, (Option.some_injective _ h).symm⟩
    · exact absurd h (by simp)

theorem mem_profiled_facilities {havq : ℚ → ℚ → ℚ → ℚ → ℚ}
    {prefFetch : String → String → List String} {u1 u2 : ℚ}
    {facilities : List FacilityRow} {im : List (List Char × String)} {io : Bool}
    {ps : Option (List String)} {age : Option ℤ} {gender : Option String}
    {pint : Option String} {limit : ℕ} {f : ScoredFacility}
    (h : f ∈ (get_profiled_facilities havq prefFetch u1 u2 facilities im io ps age
      gender pint limit).facilities) :
    ∃ row ∈ facilities,
      scoreRow havq u1 u2 ((ps.getD []).map _norm)
        ((ageGenderPrefSports prefFetch age gender).map _norm) im pint io row = some f := by
  have h1 : f ∈ profiledSorted havq prefFetch u1 u2 facilities im io ps age gender pint :=
    List.mem_of_mem_take h
  have h2 : f ∈ profiledCandidates havq prefFetch u1 u2 facilities im io ps age gender pint :=
    List.mem_mergeSort.mp h1
  simpa [profiledCandidates, List.mem_filterMap] using h2

theorem mem_nearby_parties {havq : ℚ → ℚ → ℚ → ℚ → ℚ} {u1 u2 maxd : ℚ}
    {limit : ℕ} {rows : List PartyRow} {p : PartyOut}
    (h : p ∈ get_nearby_parties havq u1 u2 maxd limit rows) :
    ∃ row ∈ rows, partyEntry havq u1 u2 maxd row = some p := by
  have h1 : p ∈ partySorted havq u1 u2 maxd rows := List.mem_of_mem_take h
  have h2 : p ∈ partyCandidates havq u1 u2 maxd rows := List.mem_mergeSort.mp h1
  simpa [partyCandidates, List.mem_filterMap] using h2

theorem partyEntry_some {havq : ℚ → ℚ → ℚ → ℚ → ℚ} {u1 u2 maxd : ℚ}
    {row : PartyRow} {p : PartyOut}
    (h : partyEntry havq u1 u2 maxd row = some p) :
    ∃ plat plon, row.lat = some plat ∧ row.lon = some plon ∧
      havq u1 u2 plat plon ≤ maxd ∧ p = mkPartyOut havq u1 u2 row plat plon := by
  unfold partyEntry at h
  split at h
  · rename_i plat plon hlat hlon
    split at h
    · exact absurd h (by simp)
    · rename_i hdist
      exact ⟨plat, plon, hlat, hlon, le_of_not_lt hdist, (Option.some_injective _ h).symm⟩
  · exact absurd h (by simp)

theorem partyEntry_none {havq : ℚ → ℚ → ℚ → ℚ → ℚ} {u1 u2 maxd : ℚ}
    {row : PartyRow} (h : row.lat = none ∨ row.lon = none) :
    partyEntry havq u1 u2 maxd row = none := by
  unfold partyEntry
  rcases h with h | h <;> rcases hlat : row.lat with _ | plat <;>
    rcases hlon : row.lon with _ | plon <;> simp_all

/-! ### Helper lemmas about the sub-scores -/

theorem sportAnyScore_cases (ps : List (List Char)) (hay : List Char) :
    sportAnyScore ps hay = 0 ∨ sportAnyScore ps hay = 1 := by
  unfold sportAnyScore
  split <;> simp

theorem intensityScore_cases (im : List (List Char × String)) (pint : Option String)
    (hay : List Char) : intensityScore im pint hay = 0 ∨ intensityScore im pint hay = 1 := by
  unfold intensityScore
  split
  · simp
  · split
    · simp
    · split
      · simp
      · split <;> simp

theorem distScoreQ_nonneg (d : ℚ) : 0 ≤ distScoreQ d := le_max_left 0 _

theorem distScoreQ_le_one {d : ℚ} (h : 0 ≤ d) : distScoreQ d ≤ 1 := by
  unfold distScoreQ
  apply max_le (by norm_num)
  rw [div_le_one (by norm_num : (0:ℚ) < 5)]
  linarith

theorem zero_one_mem_unit {x : ℚ} (h : x = 0 ∨ x = 1) : 0 ≤ x ∧ x ≤ 1 := by
  rcases h with h | h <;> simp [h]

theorem compositeScore_bounds {dist pref age gender intensity ageSports : ℚ}
    (hd : 0 ≤ dist ∧ dist ≤ 1) (hp : 0 ≤ pref ∧ pref ≤ 1) (ha : 0 ≤ age ∧ age ≤ 1)
    (hg : 0 ≤ gender ∧ gender ≤ 1) (hi : 0 ≤ intensity ∧ intensity ≤ 1)
    (hs : 0 ≤ ageSports ∧ ageSports ≤ 1) :
    0 ≤ compositeScore dist pref age gender intensity ageSports ∧
      compositeScore dist pref age gender intensity ageSports ≤ 9/10 := by
  unfold compositeScore
  obtain ⟨hd0, hd1⟩ := hd
  obtain ⟨hp0, hp1⟩ := hp
  obtain ⟨ha0, ha1⟩ := ha
  obtain ⟨hg0, hg1⟩ := hg
  obtain ⟨hi0, hi1⟩ := hi
  obtain ⟨hs0, hs1⟩ := hs
  norm_num
  constructor <;> linarith

/-! ### The haversine distance of a point to itself -/

theorem haversineA_self (lat lon : ℝ) : haversineA lat lon lat lon = 0 := by
  unfold haversineA radians
  simp

theorem atan2_zero_one : atan2 0 1 = 0 := by
  unfold atan2
  rw [if_pos (by norm_num : (0:ℝ) < 1)]
  simp

theorem haversine_self (lat lon : ℝ) : _haversine lat lon lat lon = 0 := by
  unfold _haversine
  rw [haversineA_self]
  simp [atan2_zero_one]

/-! ### Claim C5: shape of the recommendation result -/

/-- C5: the recommender returns at most `limit` entries; the returned list is
the `limit`-prefix of the stable descending sort of the candidate list; it is
sorted descending by composite score; ties keep their candidate (fetch) order;
and when the indoor-only gate is active every returned facility has the
indoor flag `"실내"`. -/
theorem recommend_facilities_shape (havq : ℚ → ℚ → ℚ → ℚ → ℚ)
    (prefFetch : String → String → List String) (user_lat user_lon : ℚ)
    (facilities : List FacilityRow) (intensity_map : List (List Char × String))
    (indoor_only : Bool) (preferred_sports : Option (List String))
    (age : Option ℤ) (gender : Option String)
    (preferred_intensity : Option String) (limit : ℕ) :
    (get_profiled_facilities havq prefFetch user_lat user_lon facilities intensity_map
        indoor_only preferred_sports age gender preferred_intensity limit).facilities.length
      ≤ limit ∧
    (get_profiled_facilities havq prefFetch user_lat user_lon facilities intensity_map
        indoor_only preferred_sports age gender preferred_intensity limit).facilities
      = (profiledSorted havq prefFetch user_lat user_lon facilities intensity_map
          indoor_only preferred_sports age gender preferred_intensity).take limit ∧
    List.Pairwise (fun a b => b.score ≤ a.score)
      (get_profiled_facilities havq prefFetch user_lat user_lon facilities intensity_map
        indoor_only preferred_sports age gender preferred_intensity limit).facilities ∧
    (indoor_only = true →
      ∀ f ∈ (get_profiled_facilities havq prefFetch user_lat user_lon facilities
          intensity_map indoor_only preferred_sports age gender preferred_intensity
          limit).facilities, f.inout_gbn_nm = some "실내") ∧
    (∀ a b : ScoredFacility, a.score = b.score →
      List.Sublist [a, b] (profiledCandidates havq prefFetch user_lat user_lon facilities
        intensity_map indoor_only preferred_sports age gender preferred_intensity) →
      List.Sublist [a, b] (profiledSorted havq prefFetch user_lat user_lon facilities
        intensity_map indoor_only preferred_sports age gender preferred_intensity)) := by
  refine ⟨?_, rfl, ?_, ?_, ?_⟩
  · exact List.length_take_le limit _
  · have hs : List.Pairwise (fun a b => scoreGE a b = true)
        (profiledSorted havq prefFetch user_lat user_lon facilities intensity_map
          indoor_only preferred_sports age gender preferred_intensity) :=
      List.sorted_mergeSort scoreGE_trans scoreGE_total _
    have hsub := hs.sublist (List.take_sublist limit _)
    exact hsub.imp (fun h => by simpa [scoreGE] using h)
  · intro hio f hf
    obtain ⟨row, hrow, hsome⟩ := mem_profiled_facilities hf
    obtain ⟨hgate, flat, flon, hlat, hlon, hsf⟩ := scoreRow_some hsome
    rw [hsf, mkScored_inout]
    by_contra hne
    exact hgate ⟨hio, hne⟩
  · intro a b hab hsub
    have hge : scoreGE a b = true := by simp [scoreGE, hab]
    exact List.pair_sublist_mergeSort scoreGE_trans scoreGE_total hge hsub

/-! ### Claim C6: the distance sub-score -/

/-- C6: the stored distance sub-score of every kept facility is (the 3-decimal
rounding of) `max(0, (5 - d)/5)` for its distance `d`; a facility strictly
farther than 5 km has raw distance sub-score exactly `0` yet is still kept in
the candidate set when it passes the gate and parses; and a facility at the
user's exact location has haversine distance `0` and distance sub-score
exactly `1`. -/
theorem distance_subscore_spec (havq : ℚ → ℚ → ℚ → ℚ → ℚ) (user_lat user_lon : ℚ)
    (ps ag : List (List Char)) (im : List (List Char × String)) (pint : Option String)
    (io : Bool) (row : FacilityRow) (flat flon : ℚ)
    (hlat : row.faci_lat = some flat) (hlon : row.faci_lot = some flon)
    (hgate : ¬(io = true ∧ row.inout_gbn_nm ≠ some "실내")) :
    (scoreRow havq user_lat user_lon ps ag im pint io row
        = some (mkScored havq user_lat user_lon ps ag im pint row flat flon) ∧
      (mkScored havq user_lat user_lon ps ag im pint row flat flon).detail_scores.distance
        = pyRound (max 0 ((5 - havq user_lat user_lon flat flon) / 5)) 3) ∧
    (∀ d : ℚ, distScoreQ d = max 0 ((5 - d) / 5)) ∧
    (∀ d : ℚ, 5 < d → distScoreQ d = 0) ∧
    (∀ lat lon : ℝ, _haversine lat lon lat lon = 0 ∧
      distScoreR (_haversine lat lon lat lon) = 1) := by
  refine ⟨⟨?_, rfl⟩, fun d => rfl, ?_, ?_⟩
  · unfold scoreRow
    rw [if_neg hgate, hlat, hlon]
  · intro d hd
    unfold distScoreQ
    apply max_eq_left
    apply div_nonpos_of_nonpos_of_nonneg <;> linarith
  · intro lat lon
    refine ⟨haversine_self lat lon, ?_⟩
    rw [haversine_self]
    unfold distScoreR
    norm_num

theorem recommend_facilities_shape_witness :
    (get_profiled_facilities havOne noPrefFetch 0 0 [rowA] [] true none none none none
      1).facilities.length ≤ 1 :=
  (recommend_facilities_shape havOne noPrefFetch 0 0 [rowA] [] true none none none none 1).1

theorem distance_subscore_spec_witness :
    scoreRow havSix 0 0 [] [] [] none false rowA
      = some (mkScored havSix 0 0 [] [] [] none rowA 1 2) ∧
    (mkScored havSix 0 0 [] [] [] none rowA 1 2).detail_scores.distance
      = pyRound (max 0 ((5 - havSix 0 0 1 2) / 5)) 3 :=
  (distance_subscore_spec havSix 0 0 [] [] [] none false rowA 1 2 rfl rfl (by simp)).1

/-! ### Claim C7: the age / gender / age_sports triple -/

/-- C7: in every returned facility the three sub-scores `age`, `gender` and
`age_sports` are equal; all three are `1.0` when some normalized
demographic-preference sport is a substring of the normalized facility
sport-type text, and all three are `0.0` otherwise. -/
theorem demographic_triple (havq : ℚ → ℚ → ℚ → ℚ → ℚ)
    (prefFetch : String → String → List String) (user_lat user_lon : ℚ)
    (facilities : List FacilityRow) (intensity_map : List (List Char × String))
    (indoor_only : Bool) (preferred_sports : Option (List String))
    (age : Option ℤ) (gender : Option String)
    (preferred_intensity : Option String) (limit : ℕ) :
    ∀ f ∈ (get_profiled_facilities havq prefFetch user_lat user_lon facilities
        intensity_map indoor_only preferred_sports age gender preferred_intensity
        limit).facilities,
      (f.detail_scores.age = f.detail_scores.gender ∧
        f.detail_scores.gender = f.detail_scores.age_sports) ∧
      (((ageGenderPrefSports prefFetch age gender).map _norm).any
          (fun sp => strIn sp (_norm (f.ftype_nm.getD ""))) = true →
        f.detail_scores.age = 1 ∧ f.detail_scores.gender = 1 ∧
          f.detail_scores.age_sports = 1) ∧
      (((ageGenderPrefSports prefFetch age gender).map _norm).any
          (fun sp => strIn sp (_norm (f.ftype_nm.getD ""))) = false →
        f.detail_scores.age = 0 ∧ f.detail_scores.gender = 0 ∧
          f.detail_scores.age_sports = 0) := by
  intro f hf
  obtain ⟨row, hrow, hsome⟩ := mem_profiled_facilities hf
  obtain ⟨hgate, flat, flon, hlat, hlon, hsf⟩ := scoreRow_some hsome
  subst hsf
  rw [mkScored_detail, mkScored_ftype]
  by_cases hany : ((ageGenderPrefSports prefFetch age gender).map _norm).any
      (fun sp => strIn sp (_norm (row.ftype_nm.getD ""))) = true
  · simp [sportAnyScore, hany]
  · simp only [Bool.not_eq_true] at hany
    simp [sportAnyScore, hany]

/-! ### Claim C8: the intensity sub-score -/

/-- C8: the stored intensity sub-score of every returned facility is computed
by `intensityScore`, and `intensityScore` is `1.0` exactly when a preferred
intensity is supplied (truthy) and the first intensity-map entry in iteration
order whose normalized sport name is a substring of the normalized facility
text carries exactly that intensity; in all other cases it is `0.0`. -/
theorem intensity_subscore (havq : ℚ → ℚ → ℚ → ℚ → ℚ)
    (prefFetch : String → String → List String) (user_lat user_lon : ℚ)
    (facilities : List FacilityRow) (intensity_map : List (List Char × String))
    (indoor_only : Bool) (preferred_sports : Option (List String))
    (age : Option ℤ) (gender : Option String)
    (preferred_intensity : Option String) (limit : ℕ) :
    (∀ f ∈ (get_profiled_facilities havq prefFetch user_lat user_lon facilities
        intensity_map indoor_only preferred_sports age gender preferred_intensity
        limit).facilities,
      f.detail_scores.intensity
        = intensityScore intensity_map preferred_intensity (_norm (f.ftype_nm.getD ""))) ∧
    (∀ im : List (List Char × String), ∀ pint : Option String, ∀ hay : List Char,
      (intensityScore im pint hay = 1 ↔
        ∃ p, pint = some p ∧ p ≠ "" ∧
          ∃ kv, im.find? (fun e => strIn e.1 hay) = some kv ∧ kv.2 = p) ∧
      (intensityScore im pint hay = 0 ∨ intensityScore im pint hay = 1)) := by
  constructor
  · intro f hf
    obtain ⟨row, hrow, hsome⟩ := mem_profiled_facilities hf
    obtain ⟨hgate, flat, flon, hlat, hlon, hsf⟩ := scoreRow_some hsome
    subst hsf
    rw [mkScored_detail, mkScored_ftype]
  · intro im pint hay
    refine ⟨?_, intensityScore_cases im pint hay⟩
    unfold intensityScore
    rcases pint with _ | p
    · simp
    · by_cases hp : p = ""
      · simp [hp]
      · rcases hfind : im.find? (fun e => strIn e.1 hay) with _ | kv
        · simp [hp, hfind]
        · simp only [hp, if_neg hp, hfind]
          by_cases hkv : kv.2 = p
          · have hne : kv.2 ≠ "" := by rw [hkv]; exact hp
            simp [hkv, hne, hp]
          · simp [hkv, hp]

theorem demographic_triple_witness :
    ((mkScored havOne 0 0 [] [] [] none rowA 1 2).detail_scores.age
        = (mkScored havOne 0 0 [] [] [] none rowA 1 2).detail_scores.gender ∧
      (mkScored havOne 0 0 [] [] [] none rowA 1 2).detail_scores.gender
        = (mkScored havOne 0 0 [] [] [] none rowA 1 2).detail_scores.age_sports) ∧
    (((ageGenderPrefSports noPrefFetch none none).map _norm).any
        (fun sp => strIn sp
          (_norm ((mkScored havOne 0 0 [] [] [] none rowA 1 2).ftype_nm.getD ""))) = true →
      (mkScored havOne 0 0 [] [] [] none rowA 1 2).detail_scores.age = 1 ∧
        (mkScored havOne 0 0 [] [] [] none rowA 1 2).detail_scores.gender = 1 ∧
        (mkScored havOne 0 0 [] [] [] none rowA 1 2).detail_scores.age_sports = 1) ∧
    (((ageGenderPrefSports noPrefFetch none none).map _norm).any
        (fun sp => strIn sp
          (_norm ((mkScored havOne 0 0 [] [] [] none rowA 1 2).ftype_nm.getD ""))) = false →
      (mkScored havOne 0 0 [] [] [] none rowA 1 2).detail_scores.age = 0 ∧
        (mkScored havOne 0 0 [] [] [] none rowA 1 2).detail_scores.gender = 0 ∧
        (mkScored havOne 0 0 [] [] [] none rowA 1 2).detail_scores.age_sports = 0) :=
  demographic_triple havOne noPrefFetch 0 0 [rowA] [] false none none none none 5
    (mkScored havOne 0 0 [] [] [] none rowA 1 2)
    (by
      show mkScored havOne 0 0 [] [] [] none rowA 1 2 ∈
        (profiledSorted havOne noPrefFetch 0 0 [rowA] [] false none none none none).take 5
      simp [profiledSorted, profiledCandidates, scoreRow, ageGenderPrefSports, rowA])

theorem intensity_subscore_witness :
    (mkScored havOne 0 0 [] [] imapA (some "고") rowA 1 2).detail_scores.intensity
      = intensityScore imapA (some "고")
          (_norm ((mkScored havOne 0 0 [] [] imapA (some "고") rowA 1 2).ftype_nm.getD "")) :=
  (intensity_subscore havOne noPrefFetch 0 0 [rowA] imapA false none none none
    (some "고") 5).1
    (mkScored havOne 0 0 [] [] imapA (some "고") rowA 1 2)
    (by
      show mkScored havOne 0 0 [] [] imapA (some "고") rowA 1 2 ∈
        (profiledSorted havOne noPrefFetch 0 0 [rowA] imapA false none none none
          (some "고")).take 5
      simp [profiledSorted, profiledCandidates, scoreRow, ageGenderPrefSports, rowA])

/-! ### Claim C9: shape of the nearby-party list -/

/-- C9: `get_nearby_parties` returns at most `limit` entries, every returned
party comes from an input row whose true (unrounded) distance is at most
`max_distance_km`, rows with unparsable coordinates are silently dropped, the
result is the `limit`-prefix of the stable ascending sort by `distance_km`,
and distance ties keep their candidate (fetch) order. -/
theorem nearby_parties_shape (havq : ℚ → ℚ → ℚ → ℚ → ℚ)
    (user_lat user_lon max_distance_km : ℚ) (limit : ℕ) (rows : List PartyRow) :
    (get_nearby_parties havq user_lat user_lon max_distance_km limit rows).length
      ≤ limit ∧
    get_nearby_parties havq user_lat user_lon max_distance_km limit rows
      = (partySorted havq user_lat user_lon max_distance_km rows).take limit ∧
    List.Pairwise (fun a b => a.distance_km ≤ b.distance_km)
      (get_nearby_parties havq user_lat user_lon max_distance_km limit rows) ∧
    (∀ p ∈ get_nearby_parties havq user_lat user_lon max_distance_km limit rows,
      ∃ row ∈ rows, ∃ plat plon, row.lat = some plat ∧ row.lon = some plon ∧
        havq user_lat user_lon plat plon ≤ max_distance_km ∧
        p = mkPartyOut havq user_lat user_lon row plat plon) ∧
    (∀ rows1 rows2 : List PartyRow, ∀ bad : PartyRow,
      bad.lat = none ∨ bad.lon = none →
      get_nearby_parties havq user_lat user_lon max_distance_km limit
          (rows1 ++ bad :: rows2)
        = get_nearby_parties havq user_lat user_lon max_distance_km limit
            (rows1 ++ rows2)) ∧
    (∀ a b : PartyOut, a.distance_km = b.distance_km →
      List.Sublist [a, b] (partyCandidates havq user_lat user_lon max_distance_km rows) →
      List.Sublist [a, b] (partySorted havq user_lat user_lon max_distance_km rows)) := by
  refine ⟨List.length_take_le limit _, rfl, ?_, ?_, ?_, ?_⟩
  · have hs := List.sorted_mergeSort distLE_trans distLE_total
      (partyCandidates havq user_lat user_lon max_distance_km rows)
    have hsub := hs.sublist (List.take_sublist limit _)
    exact hsub.imp (fun h => by simpa [distLE] using h)
  · intro p hp
    obtain ⟨row, hrow, hsome⟩ := mem_nearby_parties hp
    obtain ⟨plat, plon, hlat, hlon, hle, hout⟩ := partyEntry_some hsome
    exact ⟨row, hrow, plat, plon, hlat, hlon, hle, hout⟩
  · intro rows1 rows2 bad hbad
    have hc : partyCandidates havq user_lat user_lon max_distance_km
        (rows1 ++ bad :: rows2)
        = partyCandidates havq user_lat user_lon max_distance_km (rows1 ++ rows2) := by
      unfold partyCandidates
      rw [List.filterMap_append, List.filterMap_append,
        List.filterMap_cons_none (partyEntry_none hbad)]
    unfold get_nearby_parties partySorted
    rw [hc]
  · intro a b hab hsub
    have hle : distLE a b = true := by simp [distLE, hab]
    exact List.pair_sublist_mergeSort distLE_trans distLE_total hle hsub

theorem nearby_parties_shape_witness :
    (get_nearby_parties havOne 0 0 5 1 [partyRowA, partyRowBad]).length ≤ 1 :=
  (nearby_parties_shape havOne 0 0 5 1 [partyRowA, partyRowBad]).1

/-! ### Claim C10: bounds on the sub-scores and the composite score -/

/-- C10: provided the distance function is nonnegative (as the float
haversine always is), every returned facility has its six stored sub-scores
in `[0, 1]` and its composite score in `[0, 0.90]` — strictly below `1`;
moreover, the unrounded composite score of any facility row at distance
`d ≥ 0` already lies in `[0, 0.90]`. -/
theorem composite_score_bounds_claim (havq : ℚ → ℚ → ℚ → ℚ → ℚ)
    (prefFetch : String → String → List String) (user_lat user_lon : ℚ)
    (facilities : List FacilityRow) (intensity_map : List (List Char × String))
    (indoor_only : Bool) (preferred_sports : Option (List String))
    (age : Option ℤ) (gender : Option String)
    (preferred_intensity : Option String) (limit : ℕ)
    (hnn : ∀ a b c d : ℚ, 0 ≤ havq a b c d) :
    (∀ f ∈ (get_profiled_facilities havq prefFetch user_lat user_lon facilities
        intensity_map indoor_only preferred_sports age gender preferred_intensity
        limit).facilities,
      (0 ≤ f.detail_scores.distance ∧ f.detail_scores.distance ≤ 1) ∧
      (0 ≤ f.detail_scores.preferred_sport ∧ f.detail_scores.preferred_sport ≤ 1) ∧
      (0 ≤ f.detail_scores.age ∧ f.detail_scores.age ≤ 1) ∧
      (0 ≤ f.detail_scores.gender ∧ f.detail_scores.gender ≤ 1) ∧
      (0 ≤ f.detail_scores.intensity ∧ f.detail_scores.intensity ≤ 1) ∧
      (0 ≤ f.detail_scores.age_sports ∧ f.detail_scores.age_sports ≤ 1) ∧
      (0 ≤ f.score ∧ f.score ≤ 9/10 ∧ f.score < 1)) ∧
    (∀ d : ℚ, 0 ≤ d → ∀ ps ag : List (List Char), ∀ im : List (List Char × String),
      ∀ pint : Option String, ∀ hay : List Char,
      0 ≤ compositeScore (distScoreQ d) (sportAnyScore ps hay) (sportAnyScore ag hay)
          (sportAnyScore ag hay) (intensityScore im pint hay) (sportAnyScore ag hay) ∧
      compositeScore (distScoreQ d) (sportAnyScore ps hay) (sportAnyScore ag hay)
          (sportAnyScore ag hay) (intensityScore im pint hay) (sportAnyScore ag hay)
        ≤ 9/10) := by
  have hgen : ∀ d : ℚ, 0 ≤ d → ∀ ps ag : List (List Char),
      ∀ im : List (List Char × String), ∀ pint : Option String, ∀ hay : List Char,
      0 ≤ compositeScore (distScoreQ d) (sportAnyScore ps hay) (sportAnyScore ag hay)
          (sportAnyScore ag hay) (intensityScore im pint hay) (sportAnyScore ag hay) ∧
      compositeScore (distScoreQ d) (sportAnyScore ps hay) (sportAnyScore ag hay)
          (sportAnyScore ag hay) (intensityScore im pint hay) (sportAnyScore ag hay)
        ≤ 9/10 := by
    intro d hd ps ag im pint hay
    exact compositeScore_bounds ⟨distScoreQ_nonneg d, distScoreQ_le_one hd⟩
      (zero_one_mem_unit (sportAnyScore_cases ps hay))
      (zero_one_mem_unit (sportAnyScore_cases ag hay))
      (zero_one_mem_unit (sportAnyScore_cases ag hay))
      (zero_one_mem_unit (intensityScore_cases im pint hay))
      (zero_one_mem_unit (sportAnyScore_cases ag hay))
  refine ⟨?_, hgen⟩
  intro f hf
  obtain ⟨row, hrow, hsome⟩ := mem_profiled_facilities hf
  obtain ⟨hgate, flat, flon, hlat, hlon, hsf⟩ := scoreRow_some hsome
  subst hsf
  rw [mkScored_detail, mkScored_score]
  have hd := hnn user_lat user_lon flat flon
  obtain ⟨ht0, ht1⟩ := hgen (havq user_lat user_lon flat flon) hd
    ((preferred_sports.getD []).map _norm)
    ((ageGenderPrefSports prefFetch age gender).map _norm) intensity_map
    preferred_intensity (_norm (row.ftype_nm.getD ""))
  exact ⟨⟨pyRound_nonneg _ 3 (distScoreQ_nonneg _),
      pyRound_le_one _ 3 (distScoreQ_le_one hd)⟩,
    zero_one_mem_unit (sportAnyScore_cases _ _),
    zero_one_mem_unit (sportAnyScore_cases _ _),
    zero_one_mem_unit (sportAnyScore_cases _ _),
    zero_one_mem_unit (intensityScore_cases _ _ _),
    zero_one_mem_unit (sportAnyScore_cases _ _),
    pyRound_nonneg _ 3 ht0, pyRound3_le_nine_tenths _ ht1,
    lt_of_le_of_lt (pyRound3_le_nine_tenths _ ht1) (by norm_num)⟩

theorem composite_score_bounds_claim_witness :
    0 ≤ compositeScore (distScoreQ 1) (sportAnyScore [] (_norm "축구장"))
        (sportAnyScore [] (_norm "축구장")) (sportAnyScore [] (_norm "축구장"))
        (intensityScore [] none (_norm "축구장")) (sportAnyScore [] (_norm "축구장")) ∧
    compositeScore (distScoreQ 1) (sportAnyScore [] (_norm "축구장"))
        (sportAnyScore [] (_norm "축구장")) (sportAnyScore [] (_norm "축구장"))
        (intensityScore [] none (_norm "축구장")) (sportAnyScore [] (_norm "축구장"))
      ≤ 9/10 :=
  (composite_score_bounds_claim havOne noPrefFetch 0 0 [rowA] [] false none none none
    none 5 (by intro a b c d; norm_num [havOne])).2 1 (by norm_num) [] [] [] none
    (_norm "축구장")

end Baro
